import Mathlib

/-!
Verification of the blog platform's authentication layer and rate limiter
(`app/routes/auth.py`, `app/middleware.py`, `app/config.py`,
`app/models/user.py`), shallowly embedded in Lean.

Conventions of the embedding:
* Python `str` is `String`; where character-level structure matters (the
  registration regexes) we work on `String.data : List Char`.
* Wall-clock instants and durations are `Int` seconds.
* The external `python-jose` JWT library is modelled abstractly: a signature
  is represented as the (secret, algorithm, claims) triple it was computed
  over, so two signatures agree exactly when an ideal MAC would agree;
  expiry follows RFC 7519 (a token is expired once `now >= exp`).
* The external `passlib` bcrypt hash is modelled as an abstract injective
  digest: the digest of a password under a salt is the (salt, password)
  pair, standing for an ideal collision-free one-way function.
* Exceptions raised by route handlers become `Except` error results.
-/

deriving instance DecidableEq for Except

namespace Blog

/-- JWT-relevant fields of `Settings` in `app/config.py`.  The real values
come from the environment; only the identity of the secret matters here. -/
structure Settings where
  JWT_SECRET : String
  JWT_ALGORITHM : String
deriving DecidableEq

/-- The `settings` instance of `app/config.py` (default field values). -/
def settings : Settings :=
  { JWT_SECRET := "your_super_secret_jwt_key_here_change_in_production"
    JWT_ALGORITHM := "HS256" }

/-- The claims set carried by a token issued by `create_access_token`:
an optional `"sub"` claim and the `"exp"` timestamp. -/
structure JwtPayload where
  sub : Option String
  exp : Int
deriving DecidableEq

/-- Model of a MAC signature: the data an ideal MAC is computed over.
Two signatures are equal exactly when secret, algorithm and signed claims
all agree. -/
structure JwtSignature where
  secret : String
  alg : String
  claims : JwtPayload
deriving DecidableEq

/-- A signed token: payload plus signature. -/
structure Jwt where
  payload : JwtPayload
  sig : JwtSignature
deriving DecidableEq

/-- Errors of JWT verification (`jose.JWTError` refinements; `Malformed`
is unreachable in this embedding since every `Jwt` value parses). -/
inductive JWTError where
  | InvalidSignature
  | Expired
  | Malformed
deriving DecidableEq

/-- Model of `jose.jwt.encode(claims, secret, algorithm=alg)`. -/
def jwt_encode (claims : JwtPayload) (secret : String) (alg : String) : Jwt :=
  { payload := claims, sig := { secret := secret, alg := alg, claims := claims } }

/-- Model of `jose.jwt.decode(token, secret, algorithms=algs)` evaluated at
time `now`: the signature must have been produced with the server secret
over this very payload using an accepted algorithm, and the token must be
unexpired (RFC 7519: expired once `now >= exp`). -/
def jwt_decode (token : Jwt) (secret : String) (algs : List String) (now : Int) :
    Except JWTError JwtPayload :=
  if token.sig.secret = secret ∧ token.sig.claims = token.payload ∧ token.sig.alg ∈ algs then
    if token.payload.exp ≤ now then .error .Expired
    else .ok token.payload
  else .error .InvalidSignature

/-- Model of the bcrypt digest used through `passlib`: an abstract
injective one-way function of salt and password. -/
def bcryptDigest (salt : Nat) (password : String) : Nat × String :=
  (salt, password)

/-- A stored password hash: the salt embedded in the hash string plus the
digest (`passlib` bcrypt output). -/
structure PasswordHash where
  salt : Nat
  digest : Nat × String
deriving DecidableEq

/-- `get_password_hash` of `app/routes/auth.py` (the salt is the random
input `passlib` draws). -/
def get_password_hash (salt : Nat) (password : String) : PasswordHash :=
  { salt := salt, digest := bcryptDigest salt password }

/-- `verify_password` of `app/routes/auth.py`: re-digest the candidate with
the embedded salt and compare. -/
def verify_password (plain_password : String) (hashed_password : PasswordHash) : Bool :=
  bcryptDigest hashed_password.salt plain_password == hashed_password.digest

/-- The `User` model of `app/models/user.py` (columns relevant here). -/
structure User where
  id : String
  username : String
  email : String
  password_hash : PasswordHash
  full_name : Option String := none
  bio : Option String := none
  avatar_url : Option String := none
  is_verified : Bool := false
  is_admin : Bool := false
  is_moderator : Bool := false
  is_banned : Bool := false
  reputation : Int := 0
  created_at : Int := 0
deriving DecidableEq

/-- An `HTTPException` as raised by the route handlers (`headers` is empty
when the route passes none). -/
structure HTTPException where
  status_code : Nat
  detail : String
  headers : List (String × String) := []
deriving DecidableEq

/-- The `credentials_exception` constructed in `get_current_user`. -/
def credentials_exception : HTTPException :=
  { status_code := 401
    detail := "Could not validate credentials"
    headers := [("WWW-Authenticate", "Bearer")] }

/-- `create_access_token` of `app/routes/auth.py`: the payload dict is its
optional `"sub"` entry; `"exp"` is `now + expires_delta`, defaulting to
seven days. -/
def create_access_token (sub : Option String) (expires_delta : Option Int) (now : Int) : Jwt :=
  let expire : Int :=
    match expires_delta with
    | some d => now + d
    | none => now + 7 * 24 * 60 * 60
  jwt_encode { sub := sub, exp := expire } settings.JWT_SECRET settings.JWT_ALGORITHM

/-- `get_current_user` of `app/routes/auth.py`: decode the bearer token
(any `JWTError` becomes the generic 401), require a `"sub"` claim, and look
the subject up in the database; missing users are rejected.  The record is
returned as-is — no account-state re-check happens here. -/
def get_current_user (token : Jwt) (db : List User) (now : Int) : Except HTTPException User :=
  match jwt_decode token settings.JWT_SECRET [settings.JWT_ALGORITHM] now with
  | .error _ => .error credentials_exception
  | .ok payload =>
    match payload.sub with
    | none => .error credentials_exception
    | some user_id =>
      match db.find? (fun u => u.id == user_id) with
      | none => .error credentials_exception
      | some user => .ok user

/-- The `Token` response model of `app/routes/auth.py`. -/
structure Token where
  access_token : Jwt
  token_type : String
  expires_in : Int
deriving DecidableEq

/-- The `login` route of `app/routes/auth.py`: find the user by email; a
missing user or a failed password check yield the same generic 401; a
banned user with correct credentials yields 403; otherwise a seven-day
token is issued. -/
def login (db : List User) (email password : String) (now : Int) : Except HTTPException Token :=
  match db.find? (fun u => u.email == email) with
  | none => .error { status_code := 401, detail := "Incorrect email or password" }
  | some user =>
    if !(verify_password password user.password_hash) then
      .error { status_code := 401, detail := "Incorrect email or password" }
    else if user.is_banned then
      .error { status_code := 403, detail := "Account is banned" }
    else
      let access_token_expires : Int := 7 * 24 * 60 * 60
      .ok { access_token := create_access_token (some user.id) (some access_token_expires) now
            token_type := "bearer"
            expires_in := access_token_expires }

/-- Characters admitted by the character class `[a-zA-Z0-9_]`. -/
def isUsernameChar (c : Char) : Bool :=
  c.isLower || c.isUpper || c.isDigit || c == '_'

/-- Python's `$` anchor also matches just before a single newline at the
very end of the string, so `re.match` with a `...$` pattern effectively
ignores one trailing newline. -/
def pyDollarStrip (l : List Char) : List Char :=
  if l.getLast? = some '\n' then l.dropLast else l

/-- `re.match(r'^[a-zA-Z0-9_]+$', v)` succeeds iff, after discarding at
most one trailing newline, the string is nonempty and drawn from
`[a-zA-Z0-9_]`. -/
def matchUsernameRe (v : String) : Bool :=
  !(pyDollarStrip v.data).isEmpty && (pyDollarStrip v.data).all isUsernameChar

/-- `re.match(r'^(?=.*[a-z])(?=.*[A-Z])(?=.*\d)', v)`: each lookahead
scans `.*`, and `.` does not match a newline, so each required character
must occur before the first newline of `v`. -/
def matchPasswordRe (v : String) : Bool :=
  let line := v.data.takeWhile (fun c => c != '\n')
  line.any Char.isLower && line.any Char.isUpper && line.any Char.isDigit

/-- The `validate_username` validator of `UserRegister`. -/
def validate_username (v : String) : Except String String :=
  if v.length < 3 ∨ 50 < v.length then
    .error "Username must be between 3 and 50 characters"
  else if !(matchUsernameRe v) then
    .error "Username can only contain letters, numbers, and underscores"
  else .ok v

/-- The `validate_password` validator of `UserRegister`. -/
def validate_password (v : String) : Except String String :=
  if v.length < 8 then
    .error "Password must be at least 8 characters long"
  else if !(matchPasswordRe v) then
    .error "Password must contain at least one uppercase letter, one lowercase letter, and one number"
  else .ok v

/-- A validated `UserRegister` request body. -/
structure UserRegister where
  username : String
  email : String
  password : String
  full_name : Option String := none
deriving DecidableEq

/-- Pydantic model construction: run the field validators in declaration
order (the `EmailStr` check is external and out of scope). -/
def mkUserRegister (username email password : String) (full_name : Option String) :
    Except String UserRegister :=
  match validate_username username with
  | .error e => .error e
  | .ok u =>
    match validate_password password with
    | .error e => .error e
    | .ok p => .ok { username := u, email := email, password := p, full_name := full_name }

/-- The `UserResponse` model of `app/routes/auth.py`: the serialized view
of a user; it has no password field. -/
structure UserResponse where
  id : String
  username : String
  email : String
  full_name : Option String
  bio : Option String
  avatar_url : Option String
  is_verified : Bool
  reputation : Int
  created_at : Int
deriving DecidableEq

/-- Serialization of a `User` row into `UserResponse`
(`from_attributes`). -/
def toUserResponse (u : User) : UserResponse :=
  { id := u.id
    username := u.username
    email := u.email
    full_name := u.full_name
    bio := u.bio
    avatar_url := u.avatar_url
    is_verified := u.is_verified
    reputation := u.reputation
    created_at := u.created_at }

/-- The row inserted by `register` for a validated request (`new_id` and
`created_at` are supplied by the database, `salt` by `passlib`). -/
def mkNewUser (user_data : UserRegister) (new_id : String) (now : Int) (salt : Nat) : User :=
  { id := new_id
    username := user_data.username
    email := user_data.email
    password_hash := get_password_hash salt user_data.password
    full_name := user_data.full_name
    created_at := now }

/-- The `register` route of `app/routes/auth.py` after validation: reject
with 400 when a user with the same email or username exists (email checked
first), otherwise hash the password and insert the new row.  Returns the
handler outcome together with the resulting database. -/
def register (user_data : UserRegister) (db : List User) (new_id : String) (now : Int)
    (salt : Nat) : Except HTTPException User × List User :=
  match db.find? (fun u => u.email == user_data.email || u.username == user_data.username) with
  | some existing_user =>
    if existing_user.email == user_data.email then
      (.error { status_code := 400, detail := "Email already registered" }, db)
    else
      (.error { status_code := 400, detail := "Username already taken" }, db)
  | none =>
    let db_user := mkNewUser user_data new_id now salt
    (.ok db_user, db ++ [db_user])

/-- A failure of the registration pipeline: a pydantic validation error
(raised before the handler body runs) or an `HTTPException` from the
handler. -/
inductive RegisterError where
  | validation (detail : String)
  | http (e : HTTPException)
deriving DecidableEq

/-- The full registration pipeline: pydantic validation first, then the
`register` handler, then serialization through `UserResponse`. -/
def registerRoute (username email password : String) (full_name : Option String)
    (db : List User) (new_id : String) (now : Int) (salt : Nat) :
    Except RegisterError UserResponse × List User :=
  match mkUserRegister username email password full_name with
  | .error e => (.error (.validation e), db)
  | .ok user_data =>
    match register user_data db new_id now salt with
    | (.error e, db') => (.error (.http e), db')
    | (.ok u, db') => (.ok (toUserResponse u), db')

/-- State of `RateLimitMiddleware` in `app/middleware.py`: the
configuration and the `defaultdict(list)` of per-client timestamps. -/
structure RateLimitMiddleware where
  calls : Nat
  period : Int
  clients : String → List Int

/-- `RateLimitMiddleware.__init__` with its defaults
(100 calls per 900 seconds, empty client table). -/
def RateLimitMiddleware.init (calls : Nat) (period : Int) : RateLimitMiddleware :=
  { calls := calls, period := period, clients := fun _ => [] }

/-- Outcome of one `dispatch` call for the inbound request. -/
inductive AdmitResult where
  | Allowed
  | Rejected
deriving DecidableEq

/-- `RateLimitMiddleware.dispatch`: drop the client's timestamps that have
aged out of the trailing window, store the pruned list, then either raise
429 (when the pruned count already meets the quota) or record `now` and
admit the request. -/
def RateLimitMiddleware.dispatch (self : RateLimitMiddleware) (client_ip : String)
    (current_time : Int) : AdmitResult × RateLimitMiddleware :=
  let kept := (self.clients client_ip).filter (fun timestamp => current_time - timestamp < self.period)
  if self.calls ≤ kept.length then
    (.Rejected, { self with clients := fun s => if s = client_ip then kept else self.clients s })
  else
    (.Allowed, { self with clients := fun s => if s = client_ip then kept ++ [current_time] else self.clients s })

/-- Run a sequence of `dispatch` calls for one client at the given times,
collecting the outcomes and threading the middleware state. -/
def runCalls (self : RateLimitMiddleware) (client_ip : String) :
    List Int → List AdmitResult × RateLimitMiddleware
  | [] => ([], self)
  | t :: ts =>
    let step := self.dispatch client_ip t
    let rest := runCalls step.2 client_ip ts
    (step.1 :: rest.1, rest.2)

/-! ### Helper lemmas about the rate limiter -/

/-- One `dispatch` call: the stored list is pruned to the trailing window,
the request is rejected exactly when the pruned count meets the quota (and
then nothing is appended), otherwise `current_time` is appended; other
clients and the configuration are untouched. -/
theorem dispatch_spec (self : RateLimitMiddleware) (ip : String) (t : Int) :
    ((self.dispatch ip t).1 = .Rejected ↔
      self.calls ≤ ((self.clients ip).filter (fun x => t - x < self.period)).length) ∧
    ((self.dispatch ip t).2.clients ip =
      if self.calls ≤ ((self.clients ip).filter (fun x => t - x < self.period)).length then
        (self.clients ip).filter (fun x => t - x < self.period)
      else (self.clients ip).filter (fun x => t - x < self.period) ++ [t]) ∧
    (∀ s, s ≠ ip → (self.dispatch ip t).2.clients s = self.clients s) ∧
    (self.dispatch ip t).2.calls = self.calls ∧
    (self.dispatch ip t).2.period = self.period := by
  unfold RateLimitMiddleware.dispatch
  by_cases h : self.calls ≤ ((self.clients ip).filter (fun x => t - x < self.period)).length
  · refine ⟨by simp [h], by simp [h], ?_, by simp [h], by simp [h]⟩
    intro s hs
    simp [h, hs]
  · refine ⟨by simp [h], by simp [h], ?_, by simp [h], by simp [h]⟩
    intro s hs
    simp [h, hs]

/-- Removing a failing element makes a filter strictly shorter. -/
theorem length_filter_lt_of_mem (l : List Int) (p : Int → Bool) (a : Int)
    (ha : a ∈ l) (hpa : p a = false) : (l.filter p).length < l.length := by
  induction l with
  | nil => cases ha
  | cons x xs ih =>
    rcases List.mem_cons.mp ha with rfl | ha'
    · rw [List.filter_cons, hpa]
      simpa using Nat.lt_succ_of_le (List.length_filter_le p xs)
    · rw [List.filter_cons]
      by_cases hx : p x
      · simpa [hx] using ih ha'
      · simp only [hx]
        exact Nat.lt_succ_of_lt (ih ha')

/-- While the client stays under quota and every call lands within the
window of everything already recorded, every call is admitted and the
timestamps accumulate in order. -/
theorem runCalls_all_allowed (ip : String) (ts : List Int) :
    ∀ (self : RateLimitMiddleware) (acc : List Int),
    self.clients ip = acc →
    acc.length + ts.length ≤ self.calls →
    (∀ t ∈ ts, ∀ a ∈ acc ++ ts, t - a < self.period) →
    (runCalls self ip ts).1 = List.replicate ts.length .Allowed ∧
    (runCalls self ip ts).2.clients ip = acc ++ ts ∧
    (runCalls self ip ts).2.calls = self.calls ∧
    (runCalls self ip ts).2.period = self.period := by
  induction ts with
  | nil =>
    intro self acc hacc _ _
    simpa [runCalls] using hacc
  | cons t ts ih =>
    intro self acc hacc hlen hwin
    have hkeep : ∀ a ∈ acc, (t - a < self.period) := by
      intro a haa
      exact hwin t (List.mem_cons_self t ts) a (List.mem_append_left _ haa)
    have hfilter : acc.filter (fun x => t - x < self.period) = acc := by
      rw [List.filter_eq_self]
      intro a haa
      simpa using hkeep a haa
    have hnotfull : ¬ self.calls ≤ (acc.filter (fun x => t - x < self.period)).length := by
      rw [hfilter]
      simp only [List.length_cons] at hlen
      omega
    have hstep : self.dispatch ip t =
        (.Allowed, { self with clients := fun s => if s = ip then acc ++ [t] else self.clients s }) := by
      unfold RateLimitMiddleware.dispatch
      rw [hacc, if_neg hnotfull, hfilter]
    have hrest := ih { self with clients := fun s => if s = ip then acc ++ [t] else self.clients s }
      (acc ++ [t]) (by simp)
      (by
        change (acc ++ [t]).length + ts.length ≤ self.calls
        rw [List.length_append, List.length_cons, List.length_nil]
        simp only [List.length_cons] at hlen
        omega)
      (by
        intro u hu a haa
        refine hwin u (List.mem_cons_of_mem t hu) a ?_
        rw [List.append_assoc] at haa
        simpa [List.mem_append, List.mem_cons] using haa)
    simp only [runCalls, hstep]
    refine ⟨?_, ?_, hrest.2.2.1, hrest.2.2.2⟩
    · rw [hrest.1]
      simp [List.replicate_succ]
    · rw [hrest.2.1, List.append_assoc]
      rfl

/-- `runCalls` splits over list append. -/
theorem runCalls_append (ip : String) (ts us : List Int) :
    ∀ self : RateLimitMiddleware,
    runCalls self ip (ts ++ us) =
      ((runCalls self ip ts).1 ++ (runCalls (runCalls self ip ts).2 ip us).1,
       (runCalls (runCalls self ip ts).2 ip us).2) := by
  induction ts with
  | nil => intro self; simp [runCalls]
  | cons t ts ih => intro self; simp [runCalls, ih]

/-! ### Helper lemmas about tokens -/

/-- Decoding an unexpired token issued by `create_access_token` with the
server secret succeeds and yields the issued claims. -/
theorem jwt_decode_create_valid (sub : Option String) (t issuedAt now : Int)
    (h : now < issuedAt + t) :
    jwt_decode (create_access_token sub (some t) issuedAt)
      settings.JWT_SECRET [settings.JWT_ALGORITHM] now = .ok { sub := sub, exp := issuedAt + t } := by
  have hx : ¬ (issuedAt + t ≤ now) := by omega
  simp [create_access_token, jwt_encode, jwt_decode, hx]

/-- Decoding a token issued by `create_access_token` at or after its
expiry instant fails with `Expired`. -/
theorem jwt_decode_create_expired (sub : Option String) (t issuedAt now : Int)
    (h : issuedAt + t ≤ now) :
    jwt_decode (create_access_token sub (some t) issuedAt)
      settings.JWT_SECRET [settings.JWT_ALGORITHM] now = .error JWTError.Expired := by
  simp [create_access_token, jwt_encode, jwt_decode, h]

/-- C2: `RateLimitMiddleware.dispatch` first discards the client's
timestamps that have fallen out of the trailing window, returns Rejected
without appending when the remaining count meets the quota, and otherwise
appends the current time and returns Allowed; with the default
configuration (100 calls per 900 seconds) a fresh client's 100 calls
within one window are all Allowed and the 101st call in the same window is
Rejected. -/
theorem rate_limit_admission (ts : List Int) (now : Int)
    (hlen : ts.length = 100)
    (hwin : ∀ a ∈ ts ++ [now], ∀ b ∈ ts ++ [now], a - b < 900) :
    (∀ (self : RateLimitMiddleware) (ip : String) (t : Int),
      ((self.dispatch ip t).1 = .Rejected ↔
        self.calls ≤ ((self.clients ip).filter (fun x => t - x < self.period)).length) ∧
      ((self.dispatch ip t).1 = .Rejected →
        (self.dispatch ip t).2.clients ip =
          (self.clients ip).filter (fun x => t - x < self.period)) ∧
      ((self.dispatch ip t).1 = .Allowed →
        (self.dispatch ip t).2.clients ip =
          (self.clients ip).filter (fun x => t - x < self.period) ++ [t])) ∧
    (∀ ip : String,
      (runCalls (RateLimitMiddleware.init 100 900) ip (ts ++ [now])).1 =
        List.replicate 100 AdmitResult.Allowed ++ [AdmitResult.Rejected]) := by
  constructor
  · intro self ip t
    obtain ⟨hiff, hcl, _, _, _⟩ := dispatch_spec self ip t
    refine ⟨hiff, ?_, ?_⟩
    · intro hrej
      rw [hcl, if_pos (hiff.mp hrej)]
    · intro hall
      have hlt : ¬ self.calls ≤ ((self.clients ip).filter (fun x => t - x < self.period)).length := by
        intro hge
        rw [(dispatch_spec self ip t).1.mpr hge] at hall
        cases hall
      rw [hcl, if_neg hlt]
  · intro ip
    have hrun := runCalls_all_allowed ip ts (RateLimitMiddleware.init 100 900) [] rfl
      (by rw [hlen]; exact le_refl _)
      (by
        intro u hu a ha
        have := hwin u (List.mem_append_left _ hu) a
          (List.mem_append_left _ (by simpa using ha))
        simpa [RateLimitMiddleware.init] using this)
    rw [runCalls_append]
    rw [hrun.1, hlen]
    have hper : (runCalls (RateLimitMiddleware.init 100 900) ip ts).2.period = 900 := hrun.2.2.2
    have hcal : (runCalls (RateLimitMiddleware.init 100 900) ip ts).2.calls = 100 := hrun.2.2.1
    have hcli : (runCalls (RateLimitMiddleware.init 100 900) ip ts).2.clients ip = ts := by
      simpa using hrun.2.1
    have hkeepall : ts.filter
        (fun x => now - x < (runCalls (RateLimitMiddleware.init 100 900) ip ts).2.period) = ts := by
      rw [List.filter_eq_self]
      intro a ha
      have := hwin now (List.mem_append_right _ (List.mem_singleton_self now)) a
        (List.mem_append_left _ ha)
      rw [hper]
      simpa using this
    have hfull : (runCalls (RateLimitMiddleware.init 100 900) ip ts).2.calls ≤
        (((runCalls (RateLimitMiddleware.init 100 900) ip ts).2.clients ip).filter
          (fun x => now - x < (runCalls (RateLimitMiddleware.init 100 900) ip ts).2.period)).length := by
      rw [hcli, hkeepall, hlen, hcal]
    have hstep := (dispatch_spec (runCalls (RateLimitMiddleware.init 100 900) ip ts).2 ip now).1.mpr hfull
    simp only [runCalls]
    rw [hstep]

/-- C2 witness: 100 calls at time 0 from a fresh client are all Allowed
and the 101st call at time 0 is Rejected. -/
theorem rate_limit_admission_witness :
    (runCalls (RateLimitMiddleware.init 100 900) "10.0.0.1" (List.replicate 100 0 ++ [0])).1 =
      List.replicate 100 AdmitResult.Allowed ++ [AdmitResult.Rejected] :=
  (rate_limit_admission (List.replicate 100 0) 0 (by simp)
    (by
      intro a ha b hb
      simp only [List.mem_append, List.mem_replicate, List.mem_singleton] at ha hb
      have ha0 : a = 0 := by rcases ha with h | h; exact h.2; exact h
      have hb0 : b = 0 := by rcases hb with h | h; exact h.2; exact h
      rw [ha0, hb0]
      norm_num)).2 "10.0.0.1"

/-- C3: the admitted-request count is always computed over the trailing
window ending at the current call's time (a Rejected outcome holds exactly
when that trailing-window count meets the quota — there is no fixed-bucket
reset), and a client whose call was Rejected is Allowed again at any time
at least `period` after its oldest recorded (first admitted) timestamp,
that oldest timestamp having aged out. -/
theorem sliding_window_recovery (self : RateLimitMiddleware) (ip : String)
    (t now oldest : Int)
    (hinv : (self.clients ip).length ≤ self.calls)
    (hrej : (self.dispatch ip t).1 = .Rejected)
    (hold : oldest ∈ (self.clients ip).filter (fun x => t - x < self.period))
    (_hmin : ((self.clients ip).filter (fun x => t - x < self.period)).all
      (fun x => decide (oldest ≤ x)) = true)
    (hnow : oldest + self.period ≤ now) :
    (((self.dispatch ip t).2).dispatch ip now).1 = .Allowed ∧
    (∀ (s : RateLimitMiddleware) (u : Int),
      ((s.dispatch ip u).1 = .Rejected ↔
        s.calls ≤ ((s.clients ip).filter (fun x => u - x < s.period)).length)) := by
  obtain ⟨hiff, hcl, _, hcals, hper⟩ := dispatch_spec self ip t
  have hfull := hiff.mp hrej
  have hstate : (self.dispatch ip t).2.clients ip =
      (self.clients ip).filter (fun x => t - x < self.period) := by
    rw [hcl, if_pos hfull]
  constructor
  · have hdrop : (decide (now - oldest < self.period)) = false := by
      simp only [decide_eq_false_iff_not, not_lt]
      omega
    have hlt : (((self.dispatch ip t).2.clients ip).filter
        (fun x => now - x < (self.dispatch ip t).2.period)).length < self.calls := by
      rw [hstate, hper]
      calc (((self.clients ip).filter (fun x => t - x < self.period)).filter
              (fun x => now - x < self.period)).length
          < ((self.clients ip).filter (fun x => t - x < self.period)).length :=
            length_filter_lt_of_mem _ _ oldest hold hdrop
        _ ≤ (self.clients ip).length := List.length_filter_le _ _
        _ ≤ self.calls := hinv
    have hnot : ¬ (self.dispatch ip t).2.calls ≤
        (((self.dispatch ip t).2.clients ip).filter
          (fun x => now - x < (self.dispatch ip t).2.period)).length := by
      rw [hcals]
      omega
    obtain ⟨hiff2, _, _, _, _⟩ := dispatch_spec (self.dispatch ip t).2 ip now
    rcases h : (((self.dispatch ip t).2).dispatch ip now).1 with _ | _
    · rfl
    · exact absurd (hiff2.mp h) hnot
  · intro s u
    exact (dispatch_spec s ip u).1

/-- C3 witness: a one-call-per-window client with one recorded timestamp
at 0 is Rejected at time 0 and Allowed again at time 900. -/
theorem sliding_window_recovery_witness :
    ((({ calls := 1, period := 900,
         clients := fun s => if s = "10.0.0.1" then [(0 : Int)] else [] } :
        RateLimitMiddleware).dispatch "10.0.0.1" 0).2.dispatch "10.0.0.1" 900).1 =
      AdmitResult.Allowed :=
  (sliding_window_recovery
    { calls := 1, period := 900, clients := fun s => if s = "10.0.0.1" then [(0 : Int)] else [] }
    "10.0.0.1" 0 900 0 (by decide) (by decide) (by decide) (by decide) (by decide)).1

/-- C1: `jwt_decode` with the server secret accepts a token exactly when
its signature was produced with that secret over its own payload using the
accepted algorithm and its expiry lies in the future; a token issued by
`create_access_token` with ttl `t` decodes successfully (to its claims
with the embedded subject) while `now < issuedAt + t`, fails with
`Expired` once `issuedAt + t <= now`, and any token signed with a
different secret fails with `InvalidSignature`.  (The external JWT
library is modelled with RFC 7519 expiry semantics.) -/
theorem token_verification (sub : Option String) (t issuedAt now : Int) (secret alg : String) :
    (∀ (token : Jwt) (m : Int),
      jwt_decode token settings.JWT_SECRET [settings.JWT_ALGORITHM] m = .ok token.payload ↔
        (token.sig = { secret := settings.JWT_SECRET, alg := settings.JWT_ALGORITHM,
                       claims := token.payload } ∧ m < token.payload.exp)) ∧
    (now < issuedAt + t →
      jwt_decode (create_access_token sub (some t) issuedAt)
        settings.JWT_SECRET [settings.JWT_ALGORITHM] now = .ok { sub := sub, exp := issuedAt + t }) ∧
    (issuedAt + t ≤ now →
      jwt_decode (create_access_token sub (some t) issuedAt)
        settings.JWT_SECRET [settings.JWT_ALGORITHM] now = .error JWTError.Expired) ∧
    (secret ≠ settings.JWT_SECRET →
      jwt_decode (jwt_encode { sub := sub, exp := issuedAt + t } secret alg)
        settings.JWT_SECRET [settings.JWT_ALGORITHM] now = .error JWTError.InvalidSignature) := by
  refine ⟨?_, jwt_decode_create_valid sub t issuedAt now, jwt_decode_create_expired sub t issuedAt now, ?_⟩
  · intro token m
    obtain ⟨payload, s, a, c⟩ := token
    unfold jwt_decode
    simp only [List.mem_singleton, JwtSignature.mk.injEq]
    constructor
    · intro h
      by_cases hsig : s = settings.JWT_SECRET ∧ ({ secret := s, alg := a, claims := c } :
          JwtSignature).claims = payload ∧ a = settings.JWT_ALGORITHM
      · rw [if_pos hsig] at h
        by_cases hexp : payload.exp ≤ m
        · rw [if_pos hexp] at h
          cases h
        · exact ⟨⟨hsig.1, hsig.2.2, hsig.2.1⟩, by omega⟩
      · rw [if_neg hsig] at h
        cases h
    · intro h
      rw [if_pos ⟨h.1.1, h.1.2.2, h.1.2.1⟩, if_neg (by omega)]
  · intro hsec
    unfold jwt_encode jwt_decode
    rw [if_neg]
    intro h
    exact hsec h.1

/-- C1 witness: a token with ttl 604800 issued at 0 decodes to its claims
at time 604799, is Expired at time 604800, and the same claims signed with
a different secret fail with InvalidSignature. -/
theorem token_verification_witness :
    jwt_decode (create_access_token (some "42") (some 604800) 0)
      settings.JWT_SECRET [settings.JWT_ALGORITHM] 604799 = .ok { sub := some "42", exp := 604800 } ∧
    jwt_decode (create_access_token (some "42") (some 604800) 0)
      settings.JWT_SECRET [settings.JWT_ALGORITHM] 604800 = .error JWTError.Expired ∧
    jwt_decode (jwt_encode { sub := some "42", exp := 604800 } "attacker_secret" "HS256")
      settings.JWT_SECRET [settings.JWT_ALGORITHM] 0 = .error JWTError.InvalidSignature := by
  refine ⟨?_, ?_, ?_⟩
  · simpa using (token_verification (some "42") 604800 0 604799 "attacker_secret" "HS256").2.1 (by norm_num)
  · simpa using (token_verification (some "42") 604800 0 604800 "attacker_secret" "HS256").2.2.1 (by norm_num)
  · simpa using (token_verification (some "42") 604800 0 0 "attacker_secret" "HS256").2.2.2 (by decide)

/-- C4: verifying a password against its own hash always succeeds. -/
theorem verify_password_of_hash (p : String) (salt : Nat) :
    verify_password p (get_password_hash salt p) = true := by
  simp [verify_password, get_password_hash, bcryptDigest]

/-- C5: `create_access_token` without an expiry delta defaults to a ttl of
seven days (604800 seconds), its payload carrying the requested subject
and `exp = now + ttl`; a login with correct credentials for a non-banned
user issues exactly such a seven-day token for that user's id and reports
`expires_in = 604800`. -/
theorem issue_token_and_login (sub : Option String) (now lnow : Int) (db : List User)
    (email password : String) (user : User)
    (hfind : db.find? (fun u => u.email == email) = some user)
    (hpw : verify_password password user.password_hash = true)
    (hban : user.is_banned = false) :
    (create_access_token sub none now).payload = { sub := sub, exp := now + 604800 } ∧
    login db email password lnow =
      .ok { access_token := create_access_token (some user.id) (some 604800) lnow
            token_type := "bearer"
            expires_in := 604800 } ∧
    (create_access_token (some user.id) (some 604800) lnow).payload =
      { sub := some user.id, exp := lnow + 604800 } := by
  refine ⟨?_, ?_, rfl⟩
  · unfold create_access_token jwt_encode
    norm_num
  · unfold login
    rw [hfind]
    simp only [hpw, hban, Bool.not_true, Bool.false_eq_true, if_false]
    norm_num

/-- C5 witness: logging in with the correct credentials of a registered,
non-banned user returns a bearer token for that user's id with
`expires_in = 604800`. -/
theorem issue_token_and_login_witness :
    login [{ id := "u1", username := "alice_01", email := "alice@example.com",
             password_hash := get_password_hash 0 "Password1" }]
      "alice@example.com" "Password1" 0 =
      .ok { access_token := create_access_token (some "u1") (some 604800) 0
            token_type := "bearer"
            expires_in := 604800 } :=
  (issue_token_and_login (some "u1") 0 0
    [{ id := "u1", username := "alice_01", email := "alice@example.com",
       password_hash := get_password_hash 0 "Password1" }]
    "alice@example.com" "Password1"
    { id := "u1", username := "alice_01", email := "alice@example.com",
      password_hash := get_password_hash 0 "Password1" }
    (by decide) (by decide) (by decide)).2.1

/-- C6 counterexample: `get_current_user` performs no account-state check
after resolving the subject — a banned account presenting a valid,
unexpired token is accepted and its record returned, not rejected, so the
claim that the route layer rejects banned accounts fails on the code. -/
theorem banned_user_token_accepted :
    get_current_user (create_access_token (some "u1") (some 604800) 0)
      [{ id := "u1", username := "alice_01", email := "alice@example.com",
         password_hash := get_password_hash 0 "Password1", is_banned := true }] 1 =
      .ok { id := "u1", username := "alice_01", email := "alice@example.com",
            password_hash := get_password_hash 0 "Password1", is_banned := true } ∧
    ({ id := "u1", username := "alice_01", email := "alice@example.com",
       password_hash := get_password_hash 0 "Password1", is_banned := true } : User).is_banned
      = true := by
  decide

/-- C6 (amended): on an authenticated request with a valid unexpired
token, `get_current_user` resolves the embedded subject to a user record
and rejects with the generic 401 when no such user exists; it performs no
ban re-check — the looked-up record is returned as-is whether banned or
not, the token conferring identity only. -/
theorem get_current_user_resolution (db : List User) (sub_id : String) (t issuedAt now : Int)
    (hvalid : now < issuedAt + t) :
    (db.find? (fun u => u.id == sub_id) = none →
      get_current_user (create_access_token (some sub_id) (some t) issuedAt) db now =
        .error credentials_exception) ∧
    (∀ user : User, db.find? (fun u => u.id == sub_id) = some user →
      get_current_user (create_access_token (some sub_id) (some t) issuedAt) db now = .ok user) := by
  have hdec := jwt_decode_create_valid (some sub_id) t issuedAt now hvalid
  constructor
  · intro hnone
    simp only [get_current_user, hdec, hnone]
  · intro user hsome
    simp only [get_current_user, hdec, hsome]

/-- C6 witness: with a valid unexpired token, an unknown subject is
rejected with the generic 401, while an existing banned account's record
is returned unchanged. -/
theorem get_current_user_resolution_witness :
    get_current_user (create_access_token (some "zz") (some 10) 0) [] 5 =
      .error credentials_exception ∧
    get_current_user (create_access_token (some "u2") (some 10) 0)
      [{ id := "u2", username := "bob_01", email := "bob@example.com",
         password_hash := get_password_hash 0 "Password1", is_banned := true }] 5 =
      .ok { id := "u2", username := "bob_01", email := "bob@example.com",
            password_hash := get_password_hash 0 "Password1", is_banned := true } :=
  ⟨(get_current_user_resolution [] "zz" 10 0 5 (by norm_num)).1 (by decide),
   (get_current_user_resolution
      [{ id := "u2", username := "bob_01", email := "bob@example.com",
         password_hash := get_password_hash 0 "Password1", is_banned := true }]
      "u2" 10 0 5 (by norm_num)).2
     { id := "u2", username := "bob_01", email := "bob@example.com",
       password_hash := get_password_hash 0 "Password1", is_banned := true } (by decide)⟩

/-! ### Helper lemmas about registration validation -/

/-- A list of length at least two stays nonempty after stripping a
possible trailing newline. -/
theorem pyDollarStrip_not_isEmpty (l : List Char) (h : 2 ≤ l.length) :
    (pyDollarStrip l).isEmpty = false := by
  have hne : (pyDollarStrip l).length ≠ 0 := by
    unfold pyDollarStrip
    by_cases hl : l.getLast? = some '\n'
    · rw [if_pos hl, List.length_dropLast]
      omega
    · rw [if_neg hl]
      omega
  cases hp : pyDollarStrip l with
  | nil => rw [hp] at hne; simp at hne
  | cons x xs => rfl

/-- For usernames long enough to pass the length gate, the regex check
reduces to the character-class check on the dollar-stripped string. -/
theorem matchUsernameRe_eq_all (v : String) (h : 3 ≤ v.length) :
    matchUsernameRe v = (pyDollarStrip v.data).all isUsernameChar := by
  unfold matchUsernameRe
  have hlen : 2 ≤ v.data.length := h.trans' (by omega)
  rw [pyDollarStrip_not_isEmpty v.data hlen]
  simp

/-- `validate_username` accepts exactly the strings of length 3 to 50
whose dollar-stripped character list is drawn from `[a-zA-Z0-9_]`. -/
theorem validate_username_ok_iff (v : String) :
    validate_username v = .ok v ↔
      (3 ≤ v.length ∧ v.length ≤ 50 ∧ (pyDollarStrip v.data).all isUsernameChar = true) := by
  unfold validate_username
  by_cases h1 : v.length < 3 ∨ 50 < v.length
  · rw [if_pos h1]
    constructor
    · intro h; cases h
    · intro h; omega
  · push_neg at h1
    rw [if_neg (by omega)]
    rw [matchUsernameRe_eq_all v h1.1]
    by_cases h2 : (pyDollarStrip v.data).all isUsernameChar
    · simp [h2, h1.1, h1.2]
    · simp only [Bool.not_eq_true] at h2
      simp [h2]

/-- `validate_password` accepts exactly the strings of length at least 8
whose segment before the first newline contains a lowercase letter, an
uppercase letter and a digit. -/
theorem validate_password_ok_iff (v : String) :
    validate_password v = .ok v ↔
      (8 ≤ v.length ∧
       (v.data.takeWhile (fun c => c != '\n')).any Char.isLower = true ∧
       (v.data.takeWhile (fun c => c != '\n')).any Char.isUpper = true ∧
       (v.data.takeWhile (fun c => c != '\n')).any Char.isDigit = true) := by
  unfold validate_password matchPasswordRe
  by_cases h1 : v.length < 8
  · rw [if_pos h1]
    constructor
    · intro h; cases h
    · intro h; omega
  · rw [if_neg h1]
    by_cases h2 : ((v.data.takeWhile (fun c => c != '\n')).any Char.isLower &&
        (v.data.takeWhile (fun c => c != '\n')).any Char.isUpper &&
        (v.data.takeWhile (fun c => c != '\n')).any Char.isDigit) = true
    · rw [h2]
      have h3 := h2
      simp only [Bool.and_eq_true] at h3
      simp [h3.1.1, h3.1.2, h3.2]
      omega
    · simp only [Bool.not_eq_true] at h2
      rw [h2]
      constructor
      · intro h; cases h
      · intro h
        rw [h.2.1, h.2.2.1, h.2.2.2] at h2
        simp at h2

/-- C7 counterexample: the username "abc\n" ends in a newline — so it does
not consist only of letters, digits and underscores — yet passes
validation, because Python's dollar anchor also matches just before a
single trailing newline; and the password "aaaaaaa\nA1" has length 10 and
contains an uppercase letter, a lowercase letter and a digit, yet is
rejected, because each lookahead's dot cannot scan past the newline.
Acceptance is therefore not equivalent to the claimed conditions in
either direction. -/
theorem validation_newline_quirks :
    validate_username "abc\n" = .ok "abc\n" ∧
    "abc\n".data.all isUsernameChar = false ∧
    validate_password "aaaaaaa\nA1" =
      .error "Password must contain at least one uppercase letter, one lowercase letter, and one number" ∧
    8 ≤ "aaaaaaa\nA1".length ∧
    "aaaaaaa\nA1".data.any Char.isUpper = true ∧
    "aaaaaaa\nA1".data.any Char.isLower = true ∧
    "aaaaaaa\nA1".data.any Char.isDigit = true := by
  decide

/-- C7 (amended): registration validation accepts a username iff its
length is 3 to 50 and, after discarding the single trailing newline that
Python's dollar anchor tolerates, it consists only of letters, digits and
underscores; it accepts a password iff its length is at least 8 and the
segment before its first newline (the range a lookahead dot can scan)
contains an uppercase letter, a lowercase letter and a digit; every
violation fails fast with the error message of the violated rule, before
the duplicate check or any hashing. -/
theorem registration_validation (username email password : String) (full_name : Option String) :
    (validate_username username = .ok username ↔
      (3 ≤ username.length ∧ username.length ≤ 50 ∧
       (pyDollarStrip username.data).all isUsernameChar = true)) ∧
    (validate_password password = .ok password ↔
      (8 ≤ password.length ∧
       (password.data.takeWhile (fun c => c != '\n')).any Char.isLower = true ∧
       (password.data.takeWhile (fun c => c != '\n')).any Char.isUpper = true ∧
       (password.data.takeWhile (fun c => c != '\n')).any Char.isDigit = true)) ∧
    (∀ e, validate_username username = .error e →
      e = "Username must be between 3 and 50 characters" ∨
      e = "Username can only contain letters, numbers, and underscores") ∧
    (∀ e, validate_password password = .error e →
      e = "Password must be at least 8 characters long" ∨
      e = "Password must contain at least one uppercase letter, one lowercase letter, and one number") ∧
    (∀ (e : String) (db : List User) (new_id : String) (now : Int) (salt : Nat),
      mkUserRegister username email password full_name = .error e →
      registerRoute username email password full_name db new_id now salt =
        (.error (.validation e), db)) := by
  refine ⟨validate_username_ok_iff username, validate_password_ok_iff password, ?_, ?_, ?_⟩
  · intro e he
    unfold validate_username at he
    split_ifs at he
    · injection he with h
      exact Or.inl h.symm
    · injection he with h
      exact Or.inr h.symm
  · intro e he
    unfold validate_password at he
    split_ifs at he
    · injection he with h
      exact Or.inl h.symm
    · injection he with h
      exact Or.inr h.symm
  · intro e db new_id now salt herr
    unfold registerRoute
    rw [herr]

/-- C7 witness: the valid pair passes validation, and a too-short username
aborts the registration pipeline with the length rule's message, leaving
the database untouched. -/
theorem registration_validation_witness :
    validate_username "alice_01" = .ok "alice_01" ∧
    registerRoute "ab" "a@b.c" "Password1" none [] "u1" 0 0 =
      (.error (.validation "Username must be between 3 and 50 characters"), []) :=
  ⟨(registration_validation "alice_01" "a@b.c" "Password1" none).1.mpr (by decide),
   (registration_validation "ab" "a@b.c" "Password1" none).2.2.2.2
     "Username must be between 3 and 50 characters" [] "u1" 0 0 (by decide)⟩

/-- C8: a login that fails because the email is unknown and one that fails
because the password is wrong for an existing email produce the same
outcome — the same 401 with the same generic message — so the caller
cannot tell which part was wrong; a banned account with correct
credentials instead gets the distinct 403 "Account is banned". -/
theorem login_failure_indistinguishable (db1 db2 : List User) (e1 p1 e2 p2 : String)
    (u : User) (now1 now2 : Int)
    (h1 : db1.find? (fun v => v.email == e1) = none)
    (h2 : db2.find? (fun v => v.email == e2) = some u)
    (h3 : verify_password p2 u.password_hash = false) :
    login db1 e1 p1 now1 = login db2 e2 p2 now2 ∧
    login db1 e1 p1 now1 =
      .error { status_code := 401, detail := "Incorrect email or password" } ∧
    (∀ (db : List User) (e p : String) (w : User) (n : Int),
      db.find? (fun v => v.email == e) = some w →
      verify_password p w.password_hash = true →
      w.is_banned = true →
      login db e p n = .error { status_code := 403, detail := "Account is banned" }) := by
  have hl1 : login db1 e1 p1 now1 =
      .error { status_code := 401, detail := "Incorrect email or password" } := by
    unfold login
    rw [h1]
  have hl2 : login db2 e2 p2 now2 =
      .error { status_code := 401, detail := "Incorrect email or password" } := by
    unfold login
    rw [h2]
    simp [h3]
  refine ⟨hl1.trans hl2.symm, hl1, ?_⟩
  intro db e p w n hf hp hb
  unfold login
  rw [hf]
  simp [hp, hb]

/-- C8 witness: an unknown email and a wrong password for a registered
email yield identical outcomes, and a banned account with correct
credentials yields the distinct 403. -/
theorem login_failure_indistinguishable_witness :
    login [] "ghost@example.com" "Password1" 0 =
      login [{ id := "u1", username := "alice_01", email := "alice@example.com",
               password_hash := get_password_hash 0 "Password1" }]
        "alice@example.com" "Wrongpass1" 0 ∧
    login [{ id := "u3", username := "carol_01", email := "carol@example.com",
             password_hash := get_password_hash 0 "Password1", is_banned := true }]
      "carol@example.com" "Password1" 0 =
      .error { status_code := 403, detail := "Account is banned" } :=
  ⟨(login_failure_indistinguishable []
      [{ id := "u1", username := "alice_01", email := "alice@example.com",
         password_hash := get_password_hash 0 "Password1" }]
      "ghost@example.com" "Password1" "alice@example.com" "Wrongpass1"
      { id := "u1", username := "alice_01", email := "alice@example.com",
        password_hash := get_password_hash 0 "Password1" }
      0 0 (by decide) (by decide) (by decide)).1,
   (login_failure_indistinguishable []
      [{ id := "u1", username := "alice_01", email := "alice@example.com",
         password_hash := get_password_hash 0 "Password1" }]
      "ghost@example.com" "Password1" "alice@example.com" "Wrongpass1"
      { id := "u1", username := "alice_01", email := "alice@example.com",
        password_hash := get_password_hash 0 "Password1" }
      0 0 (by decide) (by decide) (by decide)).2.2
     [{ id := "u3", username := "carol_01", email := "carol@example.com",
        password_hash := get_password_hash 0 "Password1", is_banned := true }]
     "carol@example.com" "Password1"
     { id := "u3", username := "carol_01", email := "carol@example.com",
       password_hash := get_password_hash 0 "Password1", is_banned := true }
     0 (by decide) (by decide) (by decide)⟩

/-- C9: the registration response is independent of the stored password
hash (`UserResponse` carries no password field); with no clashing user the
handler inserts exactly one new row and returns it; with a clashing user
it fails with a 400 client error (email checked before username) and the
database is unchanged. -/
theorem register_duplicate_and_privacy (user_data : UserRegister) (db : List User) (ex : User)
    (new_id : String) (now : Int) (salt : Nat) :
    (∀ (u : User) (h : PasswordHash),
      toUserResponse { u with password_hash := h } = toUserResponse u) ∧
    (db.find? (fun u => u.email == user_data.email || u.username == user_data.username) = none →
      register user_data db new_id now salt =
        (.ok (mkNewUser user_data new_id now salt), db ++ [mkNewUser user_data new_id now salt])) ∧
    (db.find? (fun u => u.email == user_data.email || u.username == user_data.username) = some ex →
      register user_data db new_id now salt =
        (.error { status_code := 400,
                  detail := if ex.email == user_data.email then "Email already registered"
                            else "Username already taken" }, db)) := by
  refine ⟨fun u h => rfl, ?_, ?_⟩
  · intro hnone
    unfold register
    rw [hnone]
  · intro hsome
    unfold register
    rw [hsome]
    by_cases h : ex.email == user_data.email
    · simp [h]
    · simp [h]

/-- C9 witness: registering alice into an empty database inserts her row;
registering the same username again (with a fresh email) fails with
"Username already taken" and inserts nothing. -/
theorem register_duplicate_and_privacy_witness :
    register { username := "alice_01", email := "alice@example.com", password := "Password1" }
      [] "u1" 0 0 =
      (.ok (mkNewUser { username := "alice_01", email := "alice@example.com",
                        password := "Password1" } "u1" 0 0),
       [mkNewUser { username := "alice_01", email := "alice@example.com",
                    password := "Password1" } "u1" 0 0]) ∧
    register { username := "alice_01", email := "other@example.com", password := "Password1" }
      [mkNewUser { username := "alice_01", email := "alice@example.com",
                   password := "Password1" } "u1" 0 0] "u2" 1 1 =
      (.error { status_code := 400, detail := "Username already taken" },
       [mkNewUser { username := "alice_01", email := "alice@example.com",
                    password := "Password1" } "u1" 0 0]) := by
  constructor
  · exact (register_duplicate_and_privacy
      { username := "alice_01", email := "alice@example.com", password := "Password1" }
      [] (mkNewUser { username := "alice_01", email := "alice@example.com",
                      password := "Password1" } "u1" 0 0) "u1" 0 0).2.1 (by decide)
  · have h := (register_duplicate_and_privacy
      { username := "alice_01", email := "other@example.com", password := "Password1" }
      [mkNewUser { username := "alice_01", email := "alice@example.com",
                   password := "Password1" } "u1" 0 0]
      (mkNewUser { username := "alice_01", email := "alice@example.com",
                   password := "Password1" } "u1" 0 0) "u2" 1 1).2.2 (by decide)
    rw [h]
    decide

/-- C10: a token whose payload lacks a "sub" claim is rejected with the
generic 401 by `get_current_user` even though its signature is valid and
it is unexpired (its `jwt_decode` succeeds): signature and expiry checks
alone are not sufficient for acceptance. -/
theorem missing_sub_claim_rejected (db : List User) (e now : Int) (hvalid : now < e) :
    get_current_user (jwt_encode { sub := none, exp := e } settings.JWT_SECRET settings.JWT_ALGORITHM)
      db now = .error credentials_exception ∧
    jwt_decode (jwt_encode { sub := none, exp := e } settings.JWT_SECRET settings.JWT_ALGORITHM)
      settings.JWT_SECRET [settings.JWT_ALGORITHM] now = .ok { sub := none, exp := e } := by
  have hx : ¬ (e ≤ now) := by omega
  have hdec : jwt_decode (jwt_encode { sub := none, exp := e } settings.JWT_SECRET settings.JWT_ALGORITHM)
      settings.JWT_SECRET [settings.JWT_ALGORITHM] now = .ok { sub := none, exp := e } := by
    simp [jwt_encode, jwt_decode, hx]
  exact ⟨by simp only [get_current_user, hdec], hdec⟩

/-- C10 witness: a signed, unexpired token without a "sub" claim is
rejected even with a populated user table. -/
theorem missing_sub_claim_rejected_witness :
    get_current_user (jwt_encode { sub := none, exp := 10 } settings.JWT_SECRET settings.JWT_ALGORITHM)
      [{ id := "u1", username := "alice_01", email := "alice@example.com",
         password_hash := get_password_hash 0 "Password1" }] 5 = .error credentials_exception :=
  (missing_sub_claim_rejected
    [{ id := "u1", username := "alice_01", email := "alice@example.com",
       password_hash := get_password_hash 0 "Password1" }] 10 5 (by norm_num)).1

end Blog
